import Mathlib

/-!
Shallow embedding of the `vulkanox` renderer (src/app.rs, src/vulkan_renderer.rs).

External Vulkan/winit effects (surface capability queries, image acquisition,
submit/present results, the current wall clock, the window's inner size) are
passed in explicitly as environment records; machine floats (`f32` colors,
normalized mouse positions) are modelled as rationals, and `Instant`
timestamps/durations as natural numbers.  `todo!()` and `panic!` sites are
modelled by an explicit `panicked` result.
-/

namespace Vulkanox

/-- An RGBA color, as in `[f32; 4]` / `palette::Srgba`. -/
abbrev Color : Type := ℚ × ℚ × ℚ × ℚ

/-- `vulkano::swapchain::PresentMode` (the four variants the source mentions). -/
inductive PresentMode : Type
  | immediate
  | mailbox
  | fifo
  | fifoRelaxed
deriving DecidableEq, Repr

/-- The fields of `SurfaceCapabilities` the renderer reads:
`min_image_count`, `max_image_count : Option<u32>`, `current_extent : Option<[u32; 2]>`,
plus the `current_transform` passed through opaquely. -/
structure SurfaceCapabilities : Type where
  min_image_count : ℕ
  max_image_count : Option ℕ
  current_extent : Option (ℕ × ℕ)
  current_transform : ℕ
deriving DecidableEq, Repr

/-- The slice of `VulkanDevice` state the per-frame path reads:
the length of the static vertex buffer (in vertices) and the multisample count. -/
structure VulkanDevice : Type where
  vertex_buffer_len : ℕ
  samples : ℕ
deriving DecidableEq, Repr

/-- Present-mode selection from `VulkanRenderer::new` (vulkan_renderer.rs:70-84):
with vsync, Mailbox if supported else Fifo; without vsync, Immediate if
supported, else FifoRelaxed if supported, else Fifo. -/
def choosePresentMode (surface_present_modes : List PresentMode) (is_vsync : Bool) :
    PresentMode :=
  if is_vsync then
    if surface_present_modes.contains PresentMode.mailbox then PresentMode.mailbox
    else PresentMode.fifo
  else
    if surface_present_modes.contains PresentMode.immediate then PresentMode.immediate
    else if surface_present_modes.contains PresentMode.fifoRelaxed then PresentMode.fifoRelaxed
    else PresentMode.fifo

/-- `u32::MAX`. -/
def u32Max : ℕ := 2 ^ 32 - 1

/-- Requested swapchain image count (vulkan_renderer.rs:94-95):
`(min_image_count + 1).min(max_image_count.unwrap_or(u32::MAX))`. -/
def requestedImageCount (surface_capabilities : SurfaceCapabilities) : ℕ :=
  min (surface_capabilities.min_image_count + 1)
    (surface_capabilities.max_image_count.getD u32Max)

/-- The swapchain configuration the renderer creates and recreates.
`generation` counts (re)creations so that a recreation is observable. -/
structure Swapchain : Type where
  image_extent : ℕ × ℕ
  image_format : ℕ
  min_image_count : ℕ
  pre_transform : ℕ
  present_mode : PresentMode
  image_usage : ℕ
  generation : ℕ
deriving DecidableEq, Repr

/-- `Format::B8G8R8A8_SRGB`, as an opaque format code. -/
def formatB8G8R8A8Srgb : ℕ := 50

/-- `ImageUsage::COLOR_ATTACHMENT` (bit 4 of `VkImageUsageFlags`). -/
def usageColorAttachment : ℕ := 16

/-- The `previous_frame_end` GPU future: either the trivially satisfied
`sync::now(device)` future or a fence signalled by a real submission. -/
inductive GpuToken : Type
  | nowTok
  | fenceTok
deriving DecidableEq, Repr

/-- State of one `VulkanRenderer` (vulkan_renderer.rs:30-43).  The window is
identified by its id; its dynamically queried inner size lives in the
environment records. -/
structure VulkanRenderer : Type where
  vulkan_device : VulkanDevice
  window : ℕ
  swapchain : Swapchain
  clear_color : Color
  previous_frame_end : GpuToken
  start_time : ℕ
  window_index : ℕ
  window_count : ℕ
  mouse_position : ℚ × ℚ
deriving DecidableEq, Repr

/-- Environment consumed by `VulkanRenderer::new`: the surface capability
query results, the supported present modes, the window's inner size, and the
current instant (`Instant::now()`). -/
structure NewEnv : Type where
  surface_capabilities : SurfaceCapabilities
  surface_present_modes : List PresentMode
  window_inner_size : ℕ × ℕ
  now : ℕ
deriving Repr

/-- `VulkanRenderer::new` (vulkan_renderer.rs:46-140).  Creates the swapchain
from the queried capabilities, stores the clear color, starts the animation
clock at the current instant, and zeroes the mouse position. -/
def VulkanRenderer.new (vulkan_device : VulkanDevice) (window : ℕ) (clear_color : Color)
    (is_vsync : Bool) (image_usage : ℕ) (window_index window_count : ℕ)
    (env : NewEnv) : VulkanRenderer :=
  { vulkan_device := vulkan_device
    window := window
    swapchain :=
      { image_extent :=
          env.surface_capabilities.current_extent.getD env.window_inner_size
        image_format := formatB8G8R8A8Srgb
        min_image_count := requestedImageCount env.surface_capabilities
        pre_transform := env.surface_capabilities.current_transform
        present_mode := choosePresentMode env.surface_present_modes is_vsync
        image_usage := image_usage
        generation := 0 }
    clear_color := clear_color
    previous_frame_end := GpuToken.nowTok
    start_time := env.now
    window_index := window_index
    window_count := window_count
    mouse_position := (0, 0) }

/-- `VulkanRenderer::on_mouse_moved` (vulkan_renderer.rs:142-148): store the
cursor position divided componentwise by the window's inner size. -/
def VulkanRenderer.on_mouse_moved (s : VulkanRenderer) (position : ℚ × ℚ)
    (window_inner_size : ℕ × ℕ) : VulkanRenderer :=
  { s with mouse_position :=
      (position.1 / (window_inner_size.1 : ℚ), position.2 / (window_inner_size.2 : ℚ)) }

/-- `VulkanRenderer::recreate` (vulkan_renderer.rs:150-177): drop the old
images, then rebuild the swapchain with the freshly queried extent and the
prior configuration otherwise. -/
def VulkanRenderer.recreate (s : VulkanRenderer)
    (surface_capabilities : SurfaceCapabilities) (window_inner_size : ℕ × ℕ) :
    VulkanRenderer :=
  { s with swapchain :=
      { s.swapchain with
        image_extent := surface_capabilities.current_extent.getD window_inner_size
        generation := s.swapchain.generation + 1 } }

/-- Result of `acquire_next_image` after `Validated::unwrap`: success with an
image index and suboptimal flag, `VulkanError::OutOfDate`, or any other error. -/
inductive AcquireOutcome : Type
  | success (image_index : ℕ) (suboptimal : Bool)
  | outOfDate
  | err
deriving DecidableEq, Repr

/-- Result of the `then_signal_fence_and_flush` submit/present chain after
`Validated::unwrap`. -/
inductive PresentOutcome : Type
  | success
  | outOfDate
  | err
deriving DecidableEq, Repr

/-- Environment consumed by one `render` call: the window's inner size, the
outcome the Vulkan calls would report, the capabilities a recreation inside
this call would query, and the current instant. -/
structure RenderEnv : Type where
  window_inner_size : ℕ × ℕ
  acquire : AcquireOutcome
  present : PresentOutcome
  surface_capabilities : SurfaceCapabilities
  now : ℕ
deriving Repr

/-- The push-constant block `vs::PushConstantData`: elapsed time since the
renderer's start, and the stored normalized mouse position. -/
structure PushConstantData : Type where
  time : ℕ
  mousePosition : ℚ × ℚ
deriving DecidableEq, Repr

/-- One recorded command of the per-frame command buffer
(vulkan_renderer.rs:216-248). -/
inductive Command : Type
  | begin_rendering (clear_value : Color) (resolve_image_index : ℕ)
  | set_viewport (extent : ℕ × ℕ)
  | bind_pipeline_graphics
  | bind_vertex_buffers
  | bind_index_buffer
  | push_constants (data : PushConstantData)
  | draw (vertex_count instance_count first_vertex first_instance : ℕ)
  | end_rendering
deriving DecidableEq, Repr

/-- The clear color `render` actually uses: the local
`Srgba::new(0.1, 0.1, 0.1, 1.0)` (vulkan_renderer.rs:209), recorded here as
its sRGB components (the downstream `into_linear` conversion is a fixed
function of these and is left symbolic). -/
def fixedClearColor : Color := (1 / 10, 1 / 10, 1 / 10, 1)

/-- The command sequence `render` records once an image has been acquired
(vulkan_renderer.rs:200-250). -/
def VulkanRenderer.buildCommands (s : VulkanRenderer) (env : RenderEnv)
    (image_index : ℕ) : List Command :=
  let extent := s.swapchain.image_extent
  let push_constants : PushConstantData :=
    { time := env.now - s.start_time
      mousePosition := s.mouse_position }
  [ Command.begin_rendering fixedClearColor image_index,
    Command.set_viewport extent,
    Command.bind_pipeline_graphics,
    Command.bind_vertex_buffers,
    Command.bind_index_buffer,
    Command.push_constants push_constants,
    Command.draw (s.vulkan_device.vertex_buffer_len % 2 ^ 32) 10 0 0,
    Command.end_rendering ]

/-- Result of one `render` call: which path returned, the renderer state it
left behind, and the command sequence it recorded.  `panicked` stands for the
`todo!()` stubs and the explicit `panic!` (divergence, no result state). -/
inductive RenderResult : Type
  | presented (s : VulkanRenderer) (cmds : List Command)
  | skipped (s : VulkanRenderer)
  | recreated (s : VulkanRenderer) (cmds : List Command)
  | panicked
deriving DecidableEq, Repr

/-- `VulkanRenderer::render` (vulkan_renderer.rs:179-282).
Zero-area window: return at once.  Acquisition: `OutOfDate` hits `todo!()`,
other errors hit `panic!`, a suboptimal acquisition hits `todo!()`.  Then the
command buffer is recorded and the submit/present chain runs: on success the
fence future replaces `previous_frame_end`; on `OutOfDate` the swapchain is
recreated and `previous_frame_end` is reset to `sync::now`; other errors hit
`todo!()`. -/
def VulkanRenderer.render (s : VulkanRenderer) (env : RenderEnv) : RenderResult :=
  if env.window_inner_size.1 = 0 ∨ env.window_inner_size.2 = 0 then
    RenderResult.skipped s
  else
    match env.acquire with
    | AcquireOutcome.outOfDate => RenderResult.panicked
    | AcquireOutcome.err => RenderResult.panicked
    | AcquireOutcome.success image_index suboptimal =>
      if suboptimal then RenderResult.panicked
      else
        let cmds := s.buildCommands env image_index
        match env.present with
        | PresentOutcome.success =>
            RenderResult.presented { s with previous_frame_end := GpuToken.fenceTok } cmds
        | PresentOutcome.outOfDate =>
            let s₁ := s.recreate env.surface_capabilities env.window_inner_size
            RenderResult.recreated { s₁ with previous_frame_end := GpuToken.nowTok } cmds
        | PresentOutcome.err => RenderResult.panicked

/-- The commands a render result recorded (`[]` when it returned before
recording or diverged). -/
def RenderResult.cmds : RenderResult → List Command
  | RenderResult.presented _ cmds => cmds
  | RenderResult.skipped _ => []
  | RenderResult.recreated _ cmds => cmds
  | RenderResult.panicked => []

/-- Lookup in an association list modelling a `HashMap<WindowId, _>`. -/
def alookup {α : Type} (k : ℕ) : List (ℕ × α) → Option α
  | [] => none
  | (k₁, v) :: rest => if k₁ = k then some v else alookup k rest

/-- `HashMap::insert`: replace the value at an existing key, else add the
entry. -/
def ainsert {α : Type} (m : List (ℕ × α)) (k : ℕ) (v : α) : List (ℕ × α) :=
  match m with
  | [] => [(k, v)]
  | (k₁, v₁) :: rest => if k₁ = k then (k, v) :: rest else (k₁, v₁) :: ainsert rest k v

/-- `.iter().enumerate()` over the window ids, starting at index `i`. -/
def enumeratedFrom (i : ℕ) : List ℕ → List (ℕ × ℕ)
  | [] => []
  | w :: ws => (i, w) :: enumeratedFrom (i + 1) ws

/-- State of the `VisualSystem` coordinator (app.rs:15-21): the primary
window id, the window map (as its ids, in iteration order), the shared
device, and the per-window renderer map. -/
structure VisualSystem : Type where
  primary_window_id : ℕ
  windows : List ℕ
  vulkan_device : VulkanDevice
  vulkan_renderers : List (ℕ × VulkanRenderer)

/-- The renderer `VisualSystem::resume` builds for the window at iteration
index `iw.1` with id `iw.2` (app.rs:78-91): clear color
`[c, c, c, c]` with `c = index / window_count`, vsync on, color-attachment
usage. -/
def resumeRenderer (vulkan_device : VulkanDevice) (window_count : ℕ)
    (envOf : ℕ → NewEnv) (iw : ℕ × ℕ) : VulkanRenderer :=
  let c : ℚ := (iw.1 : ℚ) / (window_count : ℚ)
  VulkanRenderer.new vulkan_device iw.2 (c, c, c, c) true usageColorAttachment
    iw.1 window_count (envOf iw.2)

/-- The insertion loop of `VisualSystem::resume`, folding `HashMap::insert`
over the enumerated windows. -/
def resumeLoop (vulkan_device : VulkanDevice) (window_count : ℕ)
    (envOf : ℕ → NewEnv) (acc : List (ℕ × VulkanRenderer)) :
    List (ℕ × ℕ) → List (ℕ × VulkanRenderer)
  | [] => acc
  | iw :: rest =>
      resumeLoop vulkan_device window_count envOf
        (ainsert acc iw.2 (resumeRenderer vulkan_device window_count envOf iw)) rest

/-- `VisualSystem::resume` (app.rs:77-94): rebuild a renderer for every owned
window, keyed by its id.  `envOf` gives each window's capability query results
and the construction instant. -/
def VisualSystem.resume (s : VisualSystem) (envOf : ℕ → NewEnv) : VisualSystem :=
  { s with vulkan_renderers :=
      (resumeLoop s.vulkan_device s.windows.length envOf s.vulkan_renderers
        (enumeratedFrom 0 s.windows)) }

/-- `VisualSystem::suspend` (app.rs:96-98): `self.vulkan_renderers.clear()`. -/
def VisualSystem.suspend (s : VisualSystem) : VisualSystem :=
  { s with vulkan_renderers := [] }

/-- The winit window events `process_window_event` distinguishes. -/
inductive WindowEvent : Type
  | close_requested
  | resized (size : ℕ × ℕ)
  | redraw_requested
  | cursor_moved (position : ℚ × ℚ)
  | other
deriving Repr

/-- Result of `process_window_event`: `ok terminate s₁` models `Ok(terminate)`
with the updated system, `panicked` models a panic (in particular the
`HashMap` index `self.vulkan_renderers[&window_id]` on a missing key). -/
inductive EventResult : Type
  | ok (terminate : Bool) (s : VisualSystem)
  | panicked

/-- `VisualSystem::process_window_event` (app.rs:100-119).  A close request is
honoured only for the primary window; resize, redraw and cursor events index
the renderer map by the event's window id (panicking when absent) and run the
matching renderer operation. -/
def VisualSystem.process_window_event (s : VisualSystem) (event : WindowEvent)
    (window_id : ℕ) (env : RenderEnv) : EventResult :=
  match event with
  | WindowEvent.close_requested =>
      if s.primary_window_id = window_id then EventResult.ok true s
      else EventResult.ok false s
  | WindowEvent.resized _ =>
      match alookup window_id s.vulkan_renderers with
      | none => EventResult.panicked
      | some r =>
          EventResult.ok false
            { s with vulkan_renderers :=
                (ainsert s.vulkan_renderers window_id
                  (r.recreate env.surface_capabilities env.window_inner_size)) }
  | WindowEvent.redraw_requested =>
      match alookup window_id s.vulkan_renderers with
      | none => EventResult.panicked
      | some r =>
          match r.render env with
          | RenderResult.presented r₁ _ =>
              EventResult.ok false
                { s with vulkan_renderers := ainsert s.vulkan_renderers window_id r₁ }
          | RenderResult.skipped r₁ =>
              EventResult.ok false
                { s with vulkan_renderers := ainsert s.vulkan_renderers window_id r₁ }
          | RenderResult.recreated r₁ _ =>
              EventResult.ok false
                { s with vulkan_renderers := ainsert s.vulkan_renderers window_id r₁ }
          | RenderResult.panicked => EventResult.panicked
  | WindowEvent.cursor_moved position =>
      match alookup window_id s.vulkan_renderers with
      | none => EventResult.panicked
      | some r =>
          EventResult.ok false
            { s with vulkan_renderers :=
                (ainsert s.vulkan_renderers window_id
                  (r.on_mouse_moved position env.window_inner_size)) }
  | WindowEvent.other => EventResult.ok false s

/-- Just the control-flow outcome of a render result. -/
inductive OutcomeTag : Type
  | presented
  | skipped
  | recreated
  | panicked
deriving DecidableEq, Repr

/-- Project a render result to its outcome tag. -/
def RenderResult.tag : RenderResult → OutcomeTag
  | RenderResult.presented _ _ => OutcomeTag.presented
  | RenderResult.skipped _ => OutcomeTag.skipped
  | RenderResult.recreated _ _ => OutcomeTag.recreated
  | RenderResult.panicked => OutcomeTag.panicked

/-! ## Map lemmas -/

theorem alookup_ainsert {α : Type} (m : List (ℕ × α)) (k k₁ : ℕ) (v : α) :
    alookup k₁ (ainsert m k v) = if k = k₁ then some v else alookup k₁ m := by
  induction m with
  | nil => simp [ainsert, alookup]
  | cons p rest ih =>
      obtain ⟨k₂, v₂⟩ := p
      by_cases h₂ : k₂ = k
      · subst h₂
        by_cases h₁ : k₂ = k₁ <;> simp [ainsert, alookup, h₁]
      · by_cases h₁ : k₂ = k₁
        · subst h₁
          have : ¬ k = k₂ := fun h => h₂ h.symm
          simp [ainsert, alookup, h₂, this]
        · simp [ainsert, alookup, h₂, h₁, ih]

theorem mem_ainsert {α : Type} (m : List (ℕ × α)) (k : ℕ) (v : α) :
    ∀ p ∈ ainsert m k v, p = (k, v) ∨ p ∈ m := by
  induction m with
  | nil => intro p hp; simpa [ainsert] using hp
  | cons q rest ih =>
      obtain ⟨k₂, v₂⟩ := q
      intro p hp
      by_cases h₂ : k₂ = k
      · simp only [ainsert, h₂, if_true, eq_self_iff_true, List.mem_cons] at hp
        rcases hp with h | h
        · exact Or.inl h
        · exact Or.inr (List.mem_cons_of_mem _ h)
      · simp only [ainsert, if_neg h₂, List.mem_cons] at hp
        rcases hp with h | h
        · exact Or.inr (by simp [h])
        · rcases ih p h with h₁ | h₁
          · exact Or.inl h₁
          · exact Or.inr (List.mem_cons_of_mem _ h₁)

theorem alookup_mem {α : Type} (m : List (ℕ × α)) (k : ℕ) (v : α) :
    alookup k m = some v → (k, v) ∈ m := by
  induction m with
  | nil => intro h; simp [alookup] at h
  | cons q rest ih =>
      obtain ⟨k₂, v₂⟩ := q
      intro h
      by_cases h₂ : k₂ = k
      · subst h₂
        have h₁ : v₂ = v := by simpa [alookup] using h
        subst h₁
        exact List.mem_cons_self _ _
      · simp only [alookup, if_neg h₂] at h
        exact List.mem_cons_of_mem _ (ih h)

theorem enumeratedFrom_map_snd (ws : List ℕ) :
    ∀ i, (enumeratedFrom i ws).map Prod.snd = ws := by
  induction ws with
  | nil => intro i; simp [enumeratedFrom]
  | cons w rest ih => intro i; simp [enumeratedFrom, ih]

theorem resumeLoop_mem (Q : ℕ → VulkanRenderer → Prop) (d : VulkanDevice) (n : ℕ)
    (envOf : ℕ → NewEnv)
    (hQ : ∀ iw : ℕ × ℕ, Q iw.2 (resumeRenderer d n envOf iw)) :
    ∀ (l : List (ℕ × ℕ)) (acc : List (ℕ × VulkanRenderer)),
      (∀ p ∈ acc, Q p.1 p.2) → ∀ p ∈ resumeLoop d n envOf acc l, Q p.1 p.2 := by
  intro l
  induction l with
  | nil => intro acc hacc p hp; exact hacc p hp
  | cons iw rest ih =>
      intro acc hacc p hp
      refine ih _ ?_ p hp
      intro q hq
      rcases mem_ainsert _ _ _ q hq with h | h
      · subst h; exact hQ iw
      · exact hacc q h

theorem resumeLoop_isSome (d : VulkanDevice) (n : ℕ) (envOf : ℕ → NewEnv) (k : ℕ) :
    ∀ (l : List (ℕ × ℕ)) (acc : List (ℕ × VulkanRenderer)),
      (alookup k (resumeLoop d n envOf acc l)).isSome
        ↔ (alookup k acc).isSome ∨ k ∈ l.map Prod.snd := by
  intro l
  induction l with
  | nil => intro acc; simp [resumeLoop]
  | cons iw rest ih =>
      intro acc
      rw [resumeLoop, ih, alookup_ainsert]
      by_cases h : iw.2 = k
      · simp [h]
      · have : k ≠ iw.2 := fun h₁ => h h₁.symm
        simp [h, this]

/-! ## C1 -/

/-- The concrete coordinator used to refute C1: one window (id 7), whose
renderer was constructed at instant 0 and has seen the cursor at the window
center. -/
def c1Device : VulkanDevice := { vertex_buffer_len := 36, samples := 4 }

def c1Caps : SurfaceCapabilities :=
  { min_image_count := 2, max_image_count := some 8,
    current_extent := some (800, 600), current_transform := 1 }

def c1EnvOf : ℕ → NewEnv := fun _ =>
  { surface_capabilities := c1Caps
    surface_present_modes := [PresentMode.mailbox, PresentMode.fifo]
    window_inner_size := (800, 600)
    now := 100 }

def c1Renderer : VulkanRenderer :=
  (VulkanRenderer.new c1Device 7 (1, 1, 1, 1) true usageColorAttachment 0 1
      { surface_capabilities := c1Caps
        surface_present_modes := [PresentMode.fifo]
        window_inner_size := (800, 600)
        now := 0 }).on_mouse_moved (400, 300) (800, 600)

def c1System : VisualSystem :=
  { primary_window_id := 7, windows := [7], vulkan_device := c1Device,
    vulkan_renderers := [(7, c1Renderer)] }

/-- C1, counterexample: after `suspend()` then `resume()`, the rebuilt
renderer for window 7 has a start timestamp of 100 (the resume instant, not
the original 0) and mouse position (0, 0) (not the retained (1/2, 1/2)): the
animation clock is reset and the pointer position is lost, contradicting the
claim as stated. -/
theorem suspend_resume_not_clock_preserving :
    ∃ r₀ r₁,
      alookup 7 c1System.vulkan_renderers = some r₀ ∧
      alookup 7 ((c1System.suspend).resume c1EnvOf).vulkan_renderers = some r₁ ∧
      r₁.start_time ≠ r₀.start_time ∧ r₁.mouse_position ≠ r₀.mouse_position := by
  refine ⟨c1Renderer, _, rfl, rfl, by decide, ?_⟩
  intro hmp
  have h₁ : ((0 : ℚ), (0 : ℚ))
      = ((400 : ℚ) / ((800 : ℕ) : ℚ), (300 : ℚ) / ((600 : ℕ) : ℚ)) := hmp
  have h₂ := congrArg Prod.fst h₁
  norm_num at h₂

/-- C1, amended: `suspend()` followed by `resume()` leaves the set of window
identities unchanged (the window map is untouched and the rebuilt renderer map
has exactly the owned windows as keys), but each rebuilt renderer's animation
clock restarts at the resume instant and its last pointer position is reset to
(0, 0) rather than being preserved. -/
theorem suspend_resume_rebuild (s : VisualSystem) (envOf : ℕ → NewEnv) :
    ((s.suspend).resume envOf).windows = s.windows ∧
    (∀ window_id, (alookup window_id ((s.suspend).resume envOf).vulkan_renderers).isSome
        ↔ window_id ∈ s.windows) ∧
    ∀ window_id r, alookup window_id ((s.suspend).resume envOf).vulkan_renderers = some r →
      r.start_time = (envOf window_id).now ∧ r.mouse_position = (0, 0) := by
  refine ⟨rfl, ?_, ?_⟩
  · intro window_id
    show (alookup window_id
        (resumeLoop s.vulkan_device s.windows.length envOf [] (enumeratedFrom 0 s.windows))).isSome
      ↔ window_id ∈ s.windows
    rw [resumeLoop_isSome, enumeratedFrom_map_snd]
    simp [alookup]
  · intro window_id r hr
    have hmem : (window_id, r) ∈
        resumeLoop s.vulkan_device s.windows.length envOf [] (enumeratedFrom 0 s.windows) :=
      alookup_mem _ _ _ hr
    exact resumeLoop_mem
      (fun k r₁ => r₁.start_time = (envOf k).now ∧ r₁.mouse_position = (0, 0))
      s.vulkan_device s.windows.length envOf (fun _ => ⟨rfl, rfl⟩)
      (enumeratedFrom 0 s.windows) [] (by intro p hp; simp [alookup] at hp)
      (window_id, r) hmem

/-! ## Sample concrete inputs shared by the witnesses -/

def sampleDevice : VulkanDevice := { vertex_buffer_len := 36, samples := 4 }

def sampleCaps : SurfaceCapabilities :=
  { min_image_count := 2, max_image_count := some 8,
    current_extent := some (640, 480), current_transform := 1 }

def sampleNewEnv : NewEnv :=
  { surface_capabilities := sampleCaps
    surface_present_modes := [PresentMode.fifo]
    window_inner_size := (640, 480)
    now := 0 }

def sampleRenderer : VulkanRenderer :=
  VulkanRenderer.new sampleDevice 1 (0, 0, 0, 0) true usageColorAttachment 0 1 sampleNewEnv

def sampleRenderEnv : RenderEnv :=
  { window_inner_size := (640, 480)
    acquire := AcquireOutcome.success 0 false
    present := PresentOutcome.success
    surface_capabilities := sampleCaps
    now := 5 }

def sampleSystem : VisualSystem :=
  { primary_window_id := 1, windows := [1, 2], vulkan_device := sampleDevice,
    vulkan_renderers := [(1, sampleRenderer), (2, sampleRenderer)] }

/-! ## C2 -/

/-- C2: when `acquire_next_image` reports the swapchain out of date on a
window with non-zero extent, `render` does not treat it as recoverable: the
`Err(VulkanError::OutOfDate)` arm of the acquisition match is `todo!()`
(vulkan_renderer.rs:190-192), so the call panics instead of signalling a
recreation-and-retry. -/
theorem acquire_out_of_date_panics (s : VulkanRenderer) (env : RenderEnv)
    (h₁ : env.window_inner_size.1 ≠ 0) (h₂ : env.window_inner_size.2 ≠ 0)
    (ha : env.acquire = AcquireOutcome.outOfDate) :
    s.render env = RenderResult.panicked := by
  have hz : ¬(env.window_inner_size.1 = 0 ∨ env.window_inner_size.2 = 0) := by
    push_neg
    exact ⟨h₁, h₂⟩
  simp [VulkanRenderer.render, hz, ha]

/-- C2, witness: the stale-at-acquisition panic at a concrete input. -/
theorem acquire_out_of_date_panics_witness :
    sampleRenderer.render
        { sampleRenderEnv with acquire := AcquireOutcome.outOfDate }
      = RenderResult.panicked :=
  acquire_out_of_date_panics sampleRenderer
    { sampleRenderEnv with acquire := AcquireOutcome.outOfDate }
    (by decide) (by decide) rfl

/-! ## C3 -/

/-- C3: when the window's current extent has a zero width or height, `render`
returns at once with the `Skipped` outcome (`Ok(())` before any Vulkan call,
vulkan_renderer.rs:180-183): the state is untouched and no commands are
recorded, for every possible acquisition/present environment. -/
theorem zero_extent_skips (s : VulkanRenderer) (env : RenderEnv)
    (h : env.window_inner_size.1 = 0 ∨ env.window_inner_size.2 = 0) :
    s.render env = RenderResult.skipped s ∧ (s.render env).cmds = [] := by
  have h₁ : s.render env = RenderResult.skipped s := by
    unfold VulkanRenderer.render
    exact if_pos h
  exact ⟨h₁, by rw [h₁]; rfl⟩

/-- C3, witness: a 0×600 window skips the frame at a concrete input. -/
theorem zero_extent_skips_witness :
    sampleRenderer.render { sampleRenderEnv with window_inner_size := (0, 600) }
        = RenderResult.skipped sampleRenderer ∧
      (sampleRenderer.render
          { sampleRenderEnv with window_inner_size := (0, 600) }).cmds = [] :=
  zero_extent_skips sampleRenderer
    { sampleRenderEnv with window_inner_size := (0, 600) } (Or.inl rfl)

/-! ## C4 -/

/-- C4: when the submit/present chain fails with `OutOfDate`, `render`
recreates the swapchain immediately within the same call (with the freshly
queried extent), resets `previous_frame_end` to the trivially-satisfied
`sync::now` future, and reports the `Recreated` outcome instead of an error
(vulkan_renderer.rs:271-275). -/
theorem present_out_of_date_recreated (s : VulkanRenderer) (env : RenderEnv)
    (image_index : ℕ)
    (h₁ : env.window_inner_size.1 ≠ 0) (h₂ : env.window_inner_size.2 ≠ 0)
    (ha : env.acquire = AcquireOutcome.success image_index false)
    (hp : env.present = PresentOutcome.outOfDate) :
    ∃ s₁,
      s.render env = RenderResult.recreated s₁ (s.buildCommands env image_index) ∧
      s₁.previous_frame_end = GpuToken.nowTok ∧
      s₁.swapchain.generation = s.swapchain.generation + 1 ∧
      s₁.swapchain.image_extent
        = env.surface_capabilities.current_extent.getD env.window_inner_size := by
  have hz : ¬(env.window_inner_size.1 = 0 ∨ env.window_inner_size.2 = 0) := by
    push_neg
    exact ⟨h₁, h₂⟩
  refine ⟨{ s.recreate env.surface_capabilities env.window_inner_size with
      previous_frame_end := GpuToken.nowTok }, ?_, rfl, rfl, rfl⟩
  simp [VulkanRenderer.render, hz, ha, hp]

/-- C4, witness: the present-time staleness recovery at a concrete input. -/
theorem present_out_of_date_recreated_witness :
    ∃ s₁,
      sampleRenderer.render { sampleRenderEnv with present := PresentOutcome.outOfDate }
          = RenderResult.recreated s₁
              (sampleRenderer.buildCommands
                { sampleRenderEnv with present := PresentOutcome.outOfDate } 0) ∧
      s₁.previous_frame_end = GpuToken.nowTok ∧
      s₁.swapchain.generation = sampleRenderer.swapchain.generation + 1 ∧
      s₁.swapchain.image_extent
        = ({ sampleRenderEnv with present :=
            PresentOutcome.outOfDate } : RenderEnv).surface_capabilities.current_extent.getD
            ({ sampleRenderEnv with present := PresentOutcome.outOfDate } : RenderEnv).window_inner_size :=
  present_out_of_date_recreated sampleRenderer
    { sampleRenderEnv with present := PresentOutcome.outOfDate } 0
    (by decide) (by decide) rfl rfl

/-! ## C5 -/

/-- C5: a close request on the primary window makes `process_window_event`
return the terminate signal `true`; a close request on any other window falls
through to the wildcard arm, returns `false`, and leaves the whole coordinator
state — in particular that window's renderer entry — untouched
(app.rs:106,116-118). -/
theorem close_request_policy (s : VisualSystem) (window_id : ℕ) (env : RenderEnv) :
    (window_id = s.primary_window_id →
      s.process_window_event WindowEvent.close_requested window_id env
        = EventResult.ok true s) ∧
    (window_id ≠ s.primary_window_id →
      s.process_window_event WindowEvent.close_requested window_id env
        = EventResult.ok false s) := by
  constructor
  · intro h
    simp [VisualSystem.process_window_event, h]
  · intro h
    have h₁ : ¬ s.primary_window_id = window_id := fun h₂ => h h₂.symm
    simp [VisualSystem.process_window_event, h₁]

/-- C5, witness: primary close terminates, secondary close does not, at a
concrete two-window coordinator. -/
theorem close_request_policy_witness :
    sampleSystem.process_window_event WindowEvent.close_requested 1 sampleRenderEnv
        = EventResult.ok true sampleSystem ∧
      sampleSystem.process_window_event WindowEvent.close_requested 2 sampleRenderEnv
        = EventResult.ok false sampleSystem :=
  ⟨(close_request_policy sampleSystem 1 sampleRenderEnv).1 rfl,
   (close_request_policy sampleSystem 2 sampleRenderEnv).2 (by decide)⟩

/-! ## C10 -/

/-- C10: a resize, redraw-requested or cursor-move event whose window id has
no entry in the renderer map panics through the indexing
`self.vulkan_renderers[&window_id]` (app.rs:107-115) instead of returning an
error or ignoring the event; and after `suspend()` the renderer map is empty,
so every window id is in that position until `resume()`. -/
theorem missing_renderer_event_panics (s : VisualSystem) (window_id : ℕ)
    (env : RenderEnv)
    (h : alookup window_id s.vulkan_renderers = none) :
    (∀ size, s.process_window_event (WindowEvent.resized size) window_id env
        = EventResult.panicked) ∧
    s.process_window_event WindowEvent.redraw_requested window_id env
        = EventResult.panicked ∧
    (∀ position, s.process_window_event (WindowEvent.cursor_moved position) window_id env
        = EventResult.panicked) ∧
    ∀ window_id₁, alookup window_id₁ (VisualSystem.suspend s).vulkan_renderers = none := by
  refine ⟨?_, ?_, ?_, ?_⟩
  · intro size
    simp [VisualSystem.process_window_event, h]
  · simp [VisualSystem.process_window_event, h]
  · intro position
    simp [VisualSystem.process_window_event, h]
  · intro window_id₁
    rfl

/-- C10, witness: a redraw event for window 1 right after `suspend()` panics
at a concrete coordinator. -/
theorem missing_renderer_event_panics_witness :
    alookup 1 (VisualSystem.suspend sampleSystem).vulkan_renderers = none ∧
      (VisualSystem.suspend sampleSystem).process_window_event
          WindowEvent.redraw_requested 1 sampleRenderEnv = EventResult.panicked :=
  ⟨rfl,
   (missing_renderer_event_panics (VisualSystem.suspend sampleSystem) 1
      sampleRenderEnv rfl).2.1⟩

/-! ## C6 -/

/-- Modelled from the spec's wording for comparison: the fixed priority list
of present modes per vsync flag. -/
def presentModePriority (is_vsync : Bool) : List PresentMode :=
  if is_vsync then [PresentMode.mailbox, PresentMode.fifo]
  else [PresentMode.immediate, PresentMode.fifoRelaxed, PresentMode.fifo]

/-- Modelled from the spec's wording for comparison: a priority-list entry is
acceptable when the surface supports it, Fifo being guaranteed available. -/
def presentModeAcceptable (surface_present_modes : List PresentMode) :
    PresentMode → Bool
  | PresentMode.fifo => true
  | m => surface_present_modes.contains m

/-- Modelled from the spec's wording for comparison: pick the first acceptable
mode of the priority list. -/
def specPresentMode (surface_present_modes : List PresentMode) (is_vsync : Bool) :
    PresentMode :=
  (((presentModePriority is_vsync).filter
      (presentModeAcceptable surface_present_modes)).headD PresentMode.fifo)

/-- C6: the present mode `VulkanRenderer::new` stores in the swapchain is
exactly the first supported mode of the fixed priority list keyed on the
vsync flag: with vsync Mailbox else Fifo; without vsync Immediate, else
FifoRelaxed, else Fifo. -/
theorem present_mode_priority_list (vulkan_device : VulkanDevice) (window : ℕ)
    (clear_color : Color) (is_vsync : Bool) (image_usage window_index window_count : ℕ)
    (env : NewEnv) :
    (VulkanRenderer.new vulkan_device window clear_color is_vsync image_usage
        window_index window_count env).swapchain.present_mode
      = specPresentMode env.surface_present_modes is_vsync := by
  show choosePresentMode env.surface_present_modes is_vsync
    = specPresentMode env.surface_present_modes is_vsync
  unfold choosePresentMode specPresentMode presentModePriority
  cases is_vsync
  · by_cases h₁ : PresentMode.immediate ∈ env.surface_present_modes <;>
      by_cases h₂ : PresentMode.fifoRelaxed ∈ env.surface_present_modes <;>
        simp [h₁, h₂, List.filter, presentModeAcceptable]
  · by_cases h : PresentMode.mailbox ∈ env.surface_present_modes <;>
      simp [h, List.filter, presentModeAcceptable]

/-! ## C7 -/

/-- C7: the swapchain is created requesting
`min(surface_min_count + 1, surface_max_count_or_unbounded)` images, and —
whenever the surface reports a sane capability pair (`min ≤ max` when
bounded, `min + 1` representable in `u32`) — that request lies between the
surface minimum and, when bounded, the surface maximum, and equals `min + 1`
unless clamped to the maximum. -/
theorem image_count_policy (vulkan_device : VulkanDevice) (window : ℕ)
    (clear_color : Color) (is_vsync : Bool) (image_usage window_index window_count : ℕ)
    (env : NewEnv)
    (hmax : ∀ m, env.surface_capabilities.max_image_count = some m →
        env.surface_capabilities.min_image_count ≤ m)
    (hmin : env.surface_capabilities.min_image_count + 1 ≤ u32Max) :
    (VulkanRenderer.new vulkan_device window clear_color is_vsync image_usage
        window_index window_count env).swapchain.min_image_count
      = requestedImageCount env.surface_capabilities ∧
    requestedImageCount env.surface_capabilities
      = min (env.surface_capabilities.min_image_count + 1)
          ((env.surface_capabilities.max_image_count).getD u32Max) ∧
    env.surface_capabilities.min_image_count
      ≤ requestedImageCount env.surface_capabilities ∧
    (∀ m, env.surface_capabilities.max_image_count = some m →
      requestedImageCount env.surface_capabilities ≤ m) ∧
    (requestedImageCount env.surface_capabilities
        = env.surface_capabilities.min_image_count + 1 ∨
      env.surface_capabilities.max_image_count
        = some (requestedImageCount env.surface_capabilities)) := by
  refine ⟨rfl, rfl, ?_, ?_, ?_⟩
  · unfold requestedImageCount
    cases hm : env.surface_capabilities.max_image_count with
    | none =>
        simp only [hm, Option.getD_none]
        rw [Nat.min_def]
        split <;> omega
    | some m =>
        have h₁ := hmax m hm
        simp only [hm, Option.getD_some]
        rw [Nat.min_def]
        split <;> omega
  · intro m₁ hm₁
    have h₁ := hmax m₁ hm₁
    unfold requestedImageCount
    rw [hm₁]
    simp only [Option.getD_some]
    rw [Nat.min_def]
    split <;> omega
  · unfold requestedImageCount
    cases hm : env.surface_capabilities.max_image_count with
    | none =>
        simp only [hm, Option.getD_none]
        rw [Nat.min_def]
        split
        · exact Or.inl rfl
        · next h => exact absurd hmin h
    | some m =>
        have h₁ := hmax m hm
        simp only [hm, Option.getD_some]
        rw [Nat.min_def]
        split
        · exact Or.inl rfl
        · exact Or.inr rfl

/-- C7, witness: with surface minimum 2 and maximum 8, the request is 3. -/
theorem image_count_policy_witness :
    (VulkanRenderer.new sampleDevice 1 (0, 0, 0, 0) true usageColorAttachment 0 1
        sampleNewEnv).swapchain.min_image_count
      = requestedImageCount sampleNewEnv.surface_capabilities ∧
    requestedImageCount sampleNewEnv.surface_capabilities
      = min (sampleNewEnv.surface_capabilities.min_image_count + 1)
          ((sampleNewEnv.surface_capabilities.max_image_count).getD u32Max) ∧
    sampleNewEnv.surface_capabilities.min_image_count
      ≤ requestedImageCount sampleNewEnv.surface_capabilities ∧
    (∀ m, sampleNewEnv.surface_capabilities.max_image_count = some m →
      requestedImageCount sampleNewEnv.surface_capabilities ≤ m) ∧
    (requestedImageCount sampleNewEnv.surface_capabilities
        = sampleNewEnv.surface_capabilities.min_image_count + 1 ∨
      sampleNewEnv.surface_capabilities.max_image_count
        = some (requestedImageCount sampleNewEnv.surface_capabilities)) :=
  image_count_policy sampleDevice 1 (0, 0, 0, 0) true usageColorAttachment 0 1 sampleNewEnv
    (by intro m hm; injection hm with h₁; subst h₁; decide) (by decide)

/-! ## C8 -/

/-- Whether a command is a draw call. -/
def Command.is_draw : Command → Bool
  | Command.draw _ _ _ _ => true
  | _ => false

/-- C8: every frame that reaches command recording (successful, non-suboptimal
acquisition; the present chain not hitting the fatal stub) binds the graphics
pipeline and the static vertex and index buffers, pushes the per-frame
constants (elapsed time, stored mouse position), and issues exactly one draw
call, covering the whole static vertex buffer with instance count 10
(vulkan_renderer.rs:239-247). -/
theorem frame_commands (s : VulkanRenderer) (env : RenderEnv) (image_index : ℕ)
    (h₁ : env.window_inner_size.1 ≠ 0) (h₂ : env.window_inner_size.2 ≠ 0)
    (ha : env.acquire = AcquireOutcome.success image_index false)
    (hp : env.present ≠ PresentOutcome.err) :
    (s.render env).cmds.filter Command.is_draw
        = [Command.draw (s.vulkan_device.vertex_buffer_len % 2 ^ 32) 10 0 0] ∧
    Command.bind_pipeline_graphics ∈ (s.render env).cmds ∧
    Command.bind_vertex_buffers ∈ (s.render env).cmds ∧
    Command.bind_index_buffer ∈ (s.render env).cmds ∧
    Command.push_constants
        { time := env.now - s.start_time, mousePosition := s.mouse_position }
      ∈ (s.render env).cmds := by
  have hz : ¬(env.window_inner_size.1 = 0 ∨ env.window_inner_size.2 = 0) := by
    push_neg
    exact ⟨h₁, h₂⟩
  have hc : (s.render env).cmds = s.buildCommands env image_index := by
    cases hpr : env.present with
    | success => simp [VulkanRenderer.render, hz, ha, hpr, RenderResult.cmds]
    | outOfDate => simp [VulkanRenderer.render, hz, ha, hpr, RenderResult.cmds]
    | err => exact absurd hpr hp
  rw [hc]
  refine ⟨rfl, ?_, ?_, ?_, ?_⟩ <;> simp [VulkanRenderer.buildCommands]

/-- C8, witness: the command shape at a concrete input (36 vertices). -/
theorem frame_commands_witness :
    (sampleRenderer.render sampleRenderEnv).cmds.filter Command.is_draw
        = [Command.draw (sampleRenderer.vulkan_device.vertex_buffer_len % 2 ^ 32) 10 0 0] ∧
    Command.bind_pipeline_graphics ∈ (sampleRenderer.render sampleRenderEnv).cmds ∧
    Command.bind_vertex_buffers ∈ (sampleRenderer.render sampleRenderEnv).cmds ∧
    Command.bind_index_buffer ∈ (sampleRenderer.render sampleRenderEnv).cmds ∧
    Command.push_constants
        { time := sampleRenderEnv.now - sampleRenderer.start_time,
          mousePosition := sampleRenderer.mouse_position }
      ∈ (sampleRenderer.render sampleRenderEnv).cmds :=
  frame_commands sampleRenderer sampleRenderEnv 0 (by decide) (by decide) rfl
    (by intro h; exact PresentOutcome.noConfusion h)

/-! ## C9 -/

/-- C9: the stored per-window `clear_color` field never influences a frame:
two renderers identical but for that field produce the same render outcome
and identical command sequences, and every recorded clear value is the
hard-coded color (0.1, 0.1, 0.1, 1.0) from the local binding that shadows the
field (vulkan_renderer.rs:209,221). -/
theorem clear_color_not_observable (s : VulkanRenderer) (c : Color) (env : RenderEnv) :
    (VulkanRenderer.render { s with clear_color := c } env).tag
        = (s.render env).tag ∧
    (VulkanRenderer.render { s with clear_color := c } env).cmds
        = (s.render env).cmds ∧
    ∀ clear_value resolve_image_index,
      Command.begin_rendering clear_value resolve_image_index ∈ (s.render env).cmds →
        clear_value = fixedClearColor := by
  refine ⟨?_, ?_, ?_⟩
  · unfold VulkanRenderer.render
    by_cases hz : env.window_inner_size.1 = 0 ∨ env.window_inner_size.2 = 0
    · rw [if_pos hz, if_pos hz]
      rfl
    · rw [if_neg hz, if_neg hz]
      cases env.acquire with
      | outOfDate => rfl
      | err => rfl
      | success image_index suboptimal =>
          cases suboptimal
          · cases env.present <;> rfl
          · rfl
  · unfold VulkanRenderer.render
    by_cases hz : env.window_inner_size.1 = 0 ∨ env.window_inner_size.2 = 0
    · rw [if_pos hz, if_pos hz]
      rfl
    · rw [if_neg hz, if_neg hz]
      cases env.acquire with
      | outOfDate => rfl
      | err => rfl
      | success image_index suboptimal =>
          cases suboptimal
          · cases env.present <;> rfl
          · rfl
  · intro clear_value resolve_image_index hmem
    unfold VulkanRenderer.render at hmem
    by_cases hz : env.window_inner_size.1 = 0 ∨ env.window_inner_size.2 = 0
    · rw [if_pos hz] at hmem
      simp [RenderResult.cmds] at hmem
    · rw [if_neg hz] at hmem
      cases ha : env.acquire with
      | outOfDate =>
          rw [ha] at hmem
          simp [RenderResult.cmds] at hmem
      | err =>
          rw [ha] at hmem
          simp [RenderResult.cmds] at hmem
      | success image_index suboptimal =>
          rw [ha] at hmem
          cases suboptimal
          · cases hpr : env.present with
            | success =>
                rw [hpr] at hmem
                simp [RenderResult.cmds, VulkanRenderer.buildCommands] at hmem
                exact hmem.1
            | outOfDate =>
                rw [hpr] at hmem
                simp [RenderResult.cmds, VulkanRenderer.buildCommands] at hmem
                exact hmem.1
            | err =>
                rw [hpr] at hmem
                simp [RenderResult.cmds] at hmem
          · simp [RenderResult.cmds] at hmem

end Vulkanox
